import Mathlib

/-!
Verification of lws-minimal-secure-streams.

A shallow embedding of `minimal-examples/secure-streams/minimal-secure-streams/
minimal-secure-streams.c`: the application globals, the three payload-interface
callbacks (`myss_rx`, `myss_tx`, `myss_state`), the system-state notifier
(`app_system_state_nf`), the signal handler, the option handling and event loop
of `main`, and the embedded default policy.

Conventions.

* A C `int` is an `Int`; `unsigned int timeout_ms` is a `Nat` below `2 ^ 32`
  (the one conversion, from `atoi`, reduces modulo `2 ^ 32`). The only arithmetic
  on an `int` is `flags & LWSSS_FLAG_EOM`, which is `Int.land` (two-complement).
* The static globals are threaded explicitly as a `Globals` record.
* Calls into the library on the stream handle, the policy, the auth blob and
  stream creation are recorded, in program order, as a list of `Call`s.
  Logging (`lwsl_*`, `lws_ss_state_name`) and mere handle lookups
  (`lws_system_context_from_system_mgr`, `lws_system_get_blob`) leave no entry.
* Values returned by the library to the program (`lws_system_blob_get_size`,
  `lws_ss_create`, `lws_service`, `lws_cmdline_option`, `atoi`) are inputs.
* Enumerators and macros of `libwebsockets.h`, which is not among the sources,
  are the fields of a `Consts` record that every definition takes as an argument.
* The two preprocessor switches are arguments as well: `sspc` stands for
  `defined(LWS_SS_USE_SSPC)` and `via_socks` for `defined(VIA_LOCALHOST_SOCKS)`.
-/

namespace MinimalSecureStreams

/-! ## Header constants -/

/-- Values of the `libwebsockets.h` enumerators and macros the program names. -/
structure Consts where
  LWSSS_FLAG_EOM : Int
  LWSSSSRET_TX_DONT_SEND : Int
  LWSSSCS_CREATING : Int
  LWSSSCS_ALL_RETRIES_FAILED : Int
  LWSSSCS_QOS_ACK_REMOTE : Int
  LWSSSCS_TIMEOUT : Int
  LWSSSCS_USER_BASE : Int
  LWS_SYSTATE_INITIALIZED : Int
  LWS_SYSTATE_POLICY_VALID : Int
  LWS_SYSTATE_REGISTERED : Int
  LWS_SYSTATE_OPERATIONAL : Int
  deriving DecidableEq

/-- The case labels of the `switch (state)` in `myss_state` are pairwise different,
as C demands of the labels of one switch. -/
def Consts.state_labels_distinct (K : Consts) : Prop :=
  [K.LWSSSCS_CREATING, K.LWSSSCS_ALL_RETRIES_FAILED, K.LWSSSCS_QOS_ACK_REMOTE,
   K.LWSSSCS_TIMEOUT, K.LWSSSCS_USER_BASE].Nodup

/-- The case labels of the `switch (target)` in `app_system_state_nf` are pairwise
different, as C demands of the labels of one switch. -/
def Consts.systate_labels_distinct (K : Consts) : Prop :=
  [K.LWS_SYSTATE_INITIALIZED, K.LWS_SYSTATE_POLICY_VALID, K.LWS_SYSTATE_REGISTERED,
   K.LWS_SYSTATE_OPERATIONAL].Nodup

instance (K : Consts) : Decidable K.state_labels_distinct := by
  unfold Consts.state_labels_distinct; infer_instance

instance (K : Consts) : Decidable K.systate_labels_distinct := by
  unfold Consts.systate_labels_distinct; infer_instance

/-- One admissible assignment of the header constants (enumerators numbered in
declaration order, `LWSSS_FLAG_EOM = 1 << 1`), used to instantiate the results. -/
def sample_consts : Consts where
  LWSSS_FLAG_EOM := 2
  LWSSSSRET_TX_DONT_SEND := 1
  LWSSSCS_CREATING := 0
  LWSSSCS_ALL_RETRIES_FAILED := 8
  LWSSSCS_QOS_ACK_REMOTE := 9
  LWSSSCS_TIMEOUT := 13
  LWSSSCS_USER_BASE := 1000
  LWS_SYSTATE_INITIALIZED := 2
  LWS_SYSTATE_POLICY_VALID := 8
  LWS_SYSTATE_REGISTERED := 9
  LWS_SYSTATE_OPERATIONAL := 12

/-- C truth value of `flags & mask`. -/
def flag_set (flags mask : Int) : Bool :=
  Int.land flags mask != 0

/-! ## Policy data -/

/-- A scalar member value of a stream template object. -/
inductive JVal where
  | str (s : String)
  | num (n : Int)
  | bool (b : Bool)
  deriving DecidableEq

/-- A named backoff / retry strategy (an entry of `"retry"`). -/
structure RetryStrategy where
  name : String
  backoff : List Nat
  conceal : Nat
  jitterpc : Nat
  svalidping : Nat
  svalidhup : Nat
  deriving DecidableEq

/-- A named certificate in base64 DER (an entry of `"certs"`). -/
structure Certificate where
  name : String
  der : String
  deriving DecidableEq

/-- A named certificate chain (an entry of `"trust_stores"`). -/
structure TrustStore where
  name : String
  stack : List String
  deriving DecidableEq

/-- A named stream template (an entry of `"s"`): its members in document order. -/
structure StreamTemplate where
  name : String
  fields : List (String × JVal)
  deriving DecidableEq

/-- A policy document as the loader hands it over: the top-level members of the
JSON object, absent members being `none` or the empty list. -/
structure Policy where
  release : Option String
  product : Option String
  schema_version : Option Nat
  via_socks5 : Option String
  retry : List RetryStrategy
  certs : List Certificate
  trust_stores : List TrustStore
  s : List StreamTemplate
  deriving DecidableEq

/-- Base64 DER text of the certificate named isrg_root_x1 in the embedded policy (ISRG ROOT X1). -/
def isrg_root_x1_der : String :=
  "MIIFazCCA1OgAwIBAgIRAIIQz7DSQONZRGPgu2OCiwAwDQYJKoZIhvcNAQELBQAw" ++
  "TzELMAkGA1UEBhMCVVMxKTAnBgNVBAoTIEludGVybmV0IFNlY3VyaXR5IFJlc2Vh" ++
  "cmNoIEdyb3VwMRUwEwYDVQQDEwxJU1JHIFJvb3QgWDEwHhcNMTUwNjA0MTEwNDM4" ++
  "WhcNMzUwNjA0MTEwNDM4WjBPMQswCQYDVQQGEwJVUzEpMCcGA1UEChMgSW50ZXJu" ++
  "ZXQgU2VjdXJpdHkgUmVzZWFyY2ggR3JvdXAxFTATBgNVBAMTDElTUkcgUm9vdCBY" ++
  "MTCCAiIwDQYJKoZIhvcNAQEBBQADggIPADCCAgoCggIBAK3oJHP0FDfzm54rVygc" ++
  "h77ct984kIxuPOZXoHj3dcKi/vVqbvYATyjb3miGbESTtrFj/RQSa78f0uoxmyF+" ++
  "0TM8ukj13Xnfs7j/EvEhmkvBioZxaUpmZmyPfjxwv60pIgbz5MDmgK7iS4+3mX6U" ++
  "A5/TR5d8mUgjU+g4rk8Kb4Mu0UlXjIB0ttov0DiNewNwIRt18jA8+o+u3dpjq+sW" ++
  "T8KOEUt+zwvo/7V3LvSye0rgTBIlDHCNAymg4VMk7BPZ7hm/ELNKjD+Jo2FR3qyH" ++
  "B5T0Y3HsLuJvW5iB4YlcNHlsdu87kGJ55tukmi8mxdAQ4Q7e2RCOFvu396j3x+UC" ++
  "B5iPNgiV5+I3lg02dZ77DnKxHZu8A/lJBdiB3QW0KtZB6awBdpUKD9jf1b0SHzUv" ++
  "KBds0pjBqAlkd25HN7rOrFleaJ1/ctaJxQZBKT5ZPt0m9STJEadao0xAH0ahmbWn" ++
  "OlFuhjuefXKnEgV4We0+UXgVCwOPjdAvBbI+e0ocS3MFEvzG6uBQE3xDk3SzynTn" ++
  "jh8BCNAw1FtxNrQHusEwMFxIt4I7mKZ9YIqioymCzLq9gwQbooMDQaHWBfEbwrbw" ++
  "qHyGO0aoSCqI3Haadr8faqU9GY/rOPNk3sgrDQoo//fb4hVC1CLQJ13hef4Y53CI" ++
  "rU7m2Ys6xt0nUW7/vGT1M0NPAgMBAAGjQjBAMA4GA1UdDwEB/wQEAwIBBjAPBgNV" ++
  "HRMBAf8EBTADAQH/MB0GA1UdDgQWBBR5tFnme7bl5AFzgAiIyBpY9umbbjANBgkq" ++
  "hkiG9w0BAQsFAAOCAgEAVR9YqbyyqFDQDLHYGmkgJykIrGF1XIpu+ILlaS/V9lZL" ++
  "ubhzEFnTIZd+50xx+7LSYK05qAvqFyFWhfFQDlnrzuBZ6brJFe+GnY+EgPbk6ZGQ" ++
  "3BebYhtF8GaV0nxvwuo77x/Py9auJ/GpsMiu/X1+mvoiBOv/2X/qkSsisRcOj/KK" ++
  "NFtY2PwByVS5uCbMiogziUwthDyC3+6WVwW6LLv3xLfHTjuCvjHIInNzktHCgKQ5" ++
  "ORAzI4JMPJ+GslWYHb4phowim57iaztXOoJwTdwJx4nLCgdNbOhdjsnvzqvHu7Ur" ++
  "TkXWStAmzOVyyghqpZXjFaH3pO3JLF+l+/+sKAIuvtd7u+Nxe5AW0wdeRlN8NwdC" ++
  "jNPElpzVmbUq4JUagEiuTDkHzsxHpFKVK7q4+63SM1N95R1NbdWhscdCb+ZAJzVc" ++
  "oyi3B43njTOQ5yOf+1CceWxG1bQVs5ZufpsMljq4Ui0/1lvh+wjChP4kqKOJ2qxq" ++
  "4RgqsahDYVvTH9w7jXbyLeiNdd8XM2w9U/t7y0Ff/9yi0GE44Za4rF2LN9d11TPA" ++
  "mRGunUHBcnWEvgJBQl9nJEiU0Zsnvgc/ubhPgXRR4Xq37Z0j4r7g1SgEEzwxA57d" ++
  "emyPxgcYxn/eR44/KJ4EBs+lVDR3veyJm+kXQ99b21/+jh5Xos1AnX5iItreGCc="

/-- Base64 DER text of the certificate named LEX3_isrg_root_x1 in the embedded policy (LE X3 signed by the ISRG X1 root). -/
def LEX3_isrg_root_x1_der : String :=
  "MIIFjTCCA3WgAwIBAgIRANOxciY0IzLc9AUoUSrsnGowDQYJKoZIhvcNAQELBQAw" ++
  "TzELMAkGA1UEBhMCVVMxKTAnBgNVBAoTIEludGVybmV0IFNlY3VyaXR5IFJlc2Vh" ++
  "cmNoIEdyb3VwMRUwEwYDVQQDEwxJU1JHIFJvb3QgWDEwHhcNMTYxMDA2MTU0MzU1" ++
  "WhcNMjExMDA2MTU0MzU1WjBKMQswCQYDVQQGEwJVUzEWMBQGA1UEChMNTGV0J3Mg" ++
  "RW5jcnlwdDEjMCEGA1UEAxMaTGV0J3MgRW5jcnlwdCBBdXRob3JpdHkgWDMwggEi" ++
  "MA0GCSqGSIb3DQEBAQUAA4IBDwAwggEKAoIBAQCc0wzwWuUuR7dyXTeDs2hjMOrX" ++
  "NSYZJeG9vjXxcJIvt7hLQQWrqZ41CFjssSrEaIcLo+N15Obzp2JxunmBYB/XkZqf" ++
  "89B4Z3HIaQ6Vkc/+5pnpYDxIzH7KTXcSJJ1HG1rrueweNwAcnKx7pwXqzkrrvUHl" ++
  "Npi5y/1tPJZo3yMqQpAMhnRnyH+lmrhSYRQTP2XpgofL2/oOVvaGifOFP5eGr7Dc" ++
  "Gu9rDZUWfcQroGWymQQ2dYBrrErzG5BJeC+ilk8qICUpBMZ0wNAxzY8xOJUWuqgz" ++
  "uEPxsR/DMH+ieTETPS02+OP88jNquTkxxa/EjQ0dZBYzqvqEKbbUC8DYfcOTAgMB" ++
  "AAGjggFnMIIBYzAOBgNVHQ8BAf8EBAMCAYYwEgYDVR0TAQH/BAgwBgEB/wIBADBU" ++
  "BgNVHSAETTBLMAgGBmeBDAECATA/BgsrBgEEAYLfEwEBATAwMC4GCCsGAQUFBwIB" ++
  "FiJodHRwOi8vY3BzLnJvb3QteDEubGV0c2VuY3J5cHQub3JnMB0GA1UdDgQWBBSo" ++
  "SmpjBH3duubRObemRWXv86jsoTAzBgNVHR8ELDAqMCigJqAkhiJodHRwOi8vY3Js" ++
  "LnJvb3QteDEubGV0c2VuY3J5cHQub3JnMHIGCCsGAQUFBwEBBGYwZDAwBggrBgEF" ++
  "BQcwAYYkaHR0cDovL29jc3Aucm9vdC14MS5sZXRzZW5jcnlwdC5vcmcvMDAGCCsG" ++
  "AQUFBzAChiRodHRwOi8vY2VydC5yb290LXgxLmxldHNlbmNyeXB0Lm9yZy8wHwYD" ++
  "VR0jBBgwFoAUebRZ5nu25eQBc4AIiMgaWPbpm24wDQYJKoZIhvcNAQELBQADggIB" ++
  "ABnPdSA0LTqmRf/Q1eaM2jLonG4bQdEnqOJQ8nCqxOeTRrToEKtwT++36gTSlBGx" ++
  "A/5dut82jJQ2jxN8RI8L9QFXrWi4xXnA2EqA10yjHiR6H9cj6MFiOnb5In1eWsRM" ++
  "UM2v3e9tNsCAgBukPHAg1lQh07rvFKm/Bz9BCjaxorALINUfZ9DD64j2igLIxle2" ++
  "DPxW8dI/F2loHMjXZjqG8RkqZUdoxtID5+90FgsGIfkMpqgRS05f4zPbCEHqCXl1" ++
  "eO5HyELTgcVlLXXQDgAWnRzut1hFJeczY1tjQQno6f6s+nMydLN26WuU4s3UYvOu" ++
  "OsUxRlJu7TSRHqDC3lSE5XggVkzdaPkuKGQbGpny+01/47hfXXNB7HntWNZ6N2Vw" ++
  "p7G6OfY+YQrZwIaQmhrIqJZuigsrbe3W+gdn5ykE9+Ky0VgVUsfxo52mwFYs1JKY" ++
  "2PGDuWx8M6DlS6qQkvHaRUo0FMd8TsSlbF0/v965qGFKhSDeQoMpYnwcmQilRh/0" ++
  "ayLThlHLN81gSkJjVrPI0Y8xCVPB4twb1PFUd2fPM3sA1tJ83sZ5v8vgFv2yofKR" ++
  "PB0t6JzUA81mSqM3kxl5e+IZwhYAyO0OTg3/fs8HqGTNKd9BqoUwSRBzp06JMg5b" ++
  "rUCGwbCUDI0mxadJ3Bz4WxR6fyNpBK2yAinWEsikxqEt"
/-- The canned root token registered as the auth blob (`canned_root_token_payload`). -/
def canned_root_token_payload : String :=
  "grant_type=refresh_token" ++
  "&refresh_token=Atzr|IwEBIJedGXjDqsU_vMxykqOMg" ++
  "SHfYe3CPcedueWEMWSDMaDnEmiW8RlR1Kns7Cb4B-TOSnqp7ifVsY4BMY2B8tpHfO39XP" ++
  "zfu9HapGjTR458IyHX44FE71pWJkGZ79uVBpljP4sazJuk8XS3Oe_yLnm_DIO6fU1nU3Y" ++
  "0flYmsOiOAQE_gRk_pdlmEtHnpMA-9rLw3mkY5L89Ty9kUygBsiFaYatouROhbsTn8-jW" ++
  "k1zZLUDpT6ICtBXSnrCIg0pUbZevPFhTwdXd6eX-u4rq0W-XaDvPWFO7au-iPb4Zk5eZE" ++
  "iX6sissYrtNmuEXc2uHu7MnQO1hHCaTdIO2CANVumf-PHSD8xseamyh04sLV5JgFzY45S" ++
  "KvKMajiUZuLkMokOx86rjC2Hdkx5DO7G-dbG1ufBDG-N79pFMSs7Ck5pc283IdLoJkCQc" ++
  "AGvTX8o8I29QqkcGou-9TKhOJmpX8As94T61ok0UqqEKPJ7RhfQHHYdCtsdwxgvfVr9qI" ++
  "xL_hDCcTho8opCVX-6QhJHl6SQFlTw13" ++
  "&client_id=" ++
  "amzn1.application-oa2-client.4823334c434b4190a2b5a42c07938a2d"

/-- The program text `default_ss_policy` (compiled in when `LWS_SS_USE_SSPC` is not
defined) as a policy document; `via_socks` selects the `VIA_LOCALHOST_SOCKS`
variants of the text. -/
def default_ss_policy (via_socks : Bool) : Policy where
  release := some "01234567"
  product := some "myproduct"
  schema_version := some 1
  via_socks5 := if via_socks then some "127.0.0.1:1080" else none
  retry := [
    { name := "default"
      backoff := [1000, 2000, 3000, 5000, 10000]
      conceal := 5
      jitterpc := 20
      svalidping := 30
      svalidhup := 35 } ]
  certs := [
    { name := "isrg_root_x1", der := isrg_root_x1_der },
    { name := "LEX3_isrg_root_x1", der := LEX3_isrg_root_x1_der } ]
  trust_stores := [
    { name := "le_via_isrg", stack := ["isrg_root_x1", "LEX3_isrg_root_x1"] } ]
  s := [
    { name := "fetch_policy"
      fields := [
        ("endpoint", .str "warmcat.com"),
        ("port", .num 443),
        ("protocol", .str "h1"),
        ("http_method", .str "GET"),
        ("http_url", .str (if via_socks then "policy/minimal-proxy-socks.json"
                           else "policy/minimal-proxy-2.json")),
        ("tls", .bool true),
        ("opportunistic", .bool true),
        ("retry", .str "default"),
        ("tls_trust_store", .str "le_via_isrg") ] },
    { name := "captive_portal_detect"
      fields := [
        ("endpoint", .str "connectivitycheck.android.com"),
        ("http_url", .str "generate_204"),
        ("port", .num 80),
        ("protocol", .str "h1"),
        ("http_method", .str "GET"),
        ("opportunistic", .bool true),
        ("http_expect", .num 204),
        ("http_fail_redirect", .bool true) ] } ]

/-- A document with no members at all. -/
def Policy.empty : Policy :=
  { release := none, product := none, schema_version := none, via_socks5 := none,
    retry := [], certs := [], trust_stores := [], s := [] }

/-- The overlay text passed to `lws_ss_policy_overlay` under `force_cpd_fail_portal`:
a document whose only member is `"s"` with the single template
`captive_portal_detect` (endpoint google.com, http_url /, port 80). -/
def cpd_portal_overlay : Policy :=
  { Policy.empty with
    s := [ { name := "captive_portal_detect"
             fields := [ ("endpoint", .str "google.com"),
                         ("http_url", .str "/"),
                         ("port", .num 80) ] } ] }

/-- The overlay text passed to `lws_ss_policy_overlay` under
`force_cpd_fail_no_internet`: a document whose only member is `"s"` with the single
template `captive_portal_detect` (endpoint warmcat.com, http_url /, port 999). -/
def cpd_no_internet_overlay : Policy :=
  { Policy.empty with
    s := [ { name := "captive_portal_detect"
             fields := [ ("endpoint", .str "warmcat.com"),
                         ("http_url", .str "/"),
                         ("port", .num 999) ] } ] }

/-! ## Program state and library calls -/

/-- The static globals of the program. -/
structure Globals where
  interrupted : Int
  bad : Int
  force_cpd_fail_portal : Int
  force_cpd_fail_no_internet : Int
  test_respmap : Int
  timeout_ms : Nat
  deriving DecidableEq

/-- The globals as initialised at load time: `bad = 1`, `timeout_ms = 3000`, the
rest zero. -/
def Globals.initial : Globals :=
  { interrupted := 0, bad := 1, force_cpd_fail_portal := 0,
    force_cpd_fail_no_internet := 0, test_respmap := 0, timeout_ms := 3000 }

/-- A call from the program into the library. -/
inductive Call where
  | lws_ss_get_metadata (name : String)
  | lws_ss_start_timeout (timeout_ms : Nat)
  | lws_ss_set_metadata (name : String) (value : String) (len : Nat)
  | lws_ss_client_connect
  | lws_ss_policy_overlay (overlay : Policy)
  | lws_system_blob_get_size
  | lws_system_blob_direct_set (payload : String) (len : Nat)
  | lws_ss_create (streamtype : String)
  deriving DecidableEq

/-- What a callback leaves behind: its return value, the globals, and the library
calls it made. -/
structure Outcome where
  ret : Int
  globals : Globals
  calls : List Call
  deriving DecidableEq

/-- What `myss_tx` leaves behind: in addition, the three objects it holds pointers
to (`buf`, `*len`, `*flags`). -/
structure TxOutcome where
  ret : Int
  globals : Globals
  calls : List Call
  buf : List Nat
  len : Nat
  flags : Int
  deriving DecidableEq

/-! ## The callbacks -/

/-- The receive handler `myss_rx(userobj, buf, len, flags)`. -/
def myss_rx (K : Consts) (g : Globals) (_buf : List Nat) (_len : Nat) (flags : Int) :
    Outcome :=
  let calls := [Call.lws_ss_get_metadata "srv", Call.lws_ss_get_metadata "test"]
  if flag_set flags K.LWSSS_FLAG_EOM then
    { ret := 0, globals := { g with bad := 0, interrupted := 1 }, calls := calls }
  else
    { ret := 0, globals := g, calls := calls }

/-- The transmit handler `myss_tx(userobj, ord, buf, len, flags)`. -/
def myss_tx (K : Consts) (g : Globals) (_ord : Nat) (buf : List Nat) (len : Nat)
    (flags : Int) : TxOutcome :=
  { ret := K.LWSSSSRET_TX_DONT_SEND, globals := g, calls := [],
    buf := buf, len := len, flags := flags }

/-- The state handler `myss_state(userobj, sh, state, ack)`. -/
def myss_state (K : Consts) (g : Globals) (state : Int) (_ack : Nat) : Outcome :=
  if state = K.LWSSSCS_CREATING then
    { ret := 0, globals := g,
      calls := [Call.lws_ss_start_timeout g.timeout_ms,
                Call.lws_ss_set_metadata "uptag" "myuptag123" 10,
                Call.lws_ss_set_metadata "ctype" "myctype" 7,
                Call.lws_ss_client_connect] }
  else if state = K.LWSSSCS_ALL_RETRIES_FAILED then
    { ret := 0, globals := { g with interrupted := 1 }, calls := [] }
  else if state = K.LWSSSCS_QOS_ACK_REMOTE then
    { ret := 0, globals := g, calls := [] }
  else if state = K.LWSSSCS_TIMEOUT then
    { ret := 0, globals := g, calls := [] }
  else if state = K.LWSSSCS_USER_BASE then
    { ret := 0, globals := g, calls := [] }
  else
    { ret := 0, globals := g, calls := [] }

/-- The `LWS_SYSTATE_INITIALIZED` / `LWS_SYSTATE_POLICY_VALID` arm of the notifier. -/
def nf_overlay_calls (g : Globals) (current target : Int) : List Call :=
  if target ≠ current then []
  else
    (if g.force_cpd_fail_portal ≠ 0 then [Call.lws_ss_policy_overlay cpd_portal_overlay]
     else []) ++
    (if g.force_cpd_fail_no_internet ≠ 0 then
       [Call.lws_ss_policy_overlay cpd_no_internet_overlay]
     else [])

/-- The `LWS_SYSTATE_REGISTERED` arm of the notifier; `blob_size` is what
`lws_system_blob_get_size(ab)` returns. -/
def nf_registered_calls (blob_size : Nat) : List Call :=
  if blob_size ≠ 0 then [Call.lws_system_blob_get_size]
  else [Call.lws_system_blob_get_size,
        Call.lws_system_blob_direct_set canned_root_token_payload
          canned_root_token_payload.length]

/-- The `LWS_SYSTATE_OPERATIONAL` arm of the notifier; `ss_create_ret` is what
`lws_ss_create` returns. -/
def nf_operational (K : Consts) (g : Globals) (current : Int) (ss_create_ret : Int) :
    Outcome :=
  if current = K.LWS_SYSTATE_OPERATIONAL then
    let streamtype := if g.test_respmap ≠ 0 then "respmap" else "mintest"
    if ss_create_ret ≠ 0 then
      { ret := -1, globals := g, calls := [Call.lws_ss_create streamtype] }
    else
      { ret := 0, globals := g, calls := [Call.lws_ss_create streamtype] }
  else
    { ret := 0, globals := g, calls := [] }

/-- The notifier `app_system_state_nf(mgr, link, current, target)`. With `sspc` the
first three case labels are compiled out. -/
def app_system_state_nf (K : Consts) (sspc : Bool) (g : Globals) (current target : Int)
    (blob_size : Nat) (ss_create_ret : Int) : Outcome :=
  if ¬ sspc ∧ (target = K.LWS_SYSTATE_INITIALIZED ∨ target = K.LWS_SYSTATE_POLICY_VALID) then
    { ret := 0, globals := g, calls := nf_overlay_calls g current target }
  else if ¬ sspc ∧ target = K.LWS_SYSTATE_REGISTERED then
    { ret := 0, globals := g, calls := nf_registered_calls blob_size }
  else if target = K.LWS_SYSTATE_OPERATIONAL then
    nf_operational K g current ss_create_ret
  else
    { ret := 0, globals := g, calls := [] }

/-- The signal handler `sigint_handler(sig)`. -/
def sigint_handler (g : Globals) (_sig : Int) : Globals :=
  { g with interrupted := 1 }

/-! ## `main`: option handling and the event loop -/

/-- One invocation of a callback of the program by the library or the system, with
its arguments and the values the library hands back during it. -/
inductive Event where
  | rx (buf : List Nat) (len : Nat) (flags : Int)
  | tx (ord : Nat) (buf : List Nat) (len : Nat) (flags : Int)
  | state (state : Int) (ack : Nat)
  | nf (current target : Int) (blob_size : Nat) (ss_create_ret : Int)
  | sigint (sig : Int)
  deriving DecidableEq

/-- The globals after one callback invocation. -/
def dispatch (K : Consts) (sspc : Bool) (g : Globals) : Event → Globals
  | .rx buf len flags => (myss_rx K g buf len flags).globals
  | .tx ord buf len flags => (myss_tx K g ord buf len flags).globals
  | .state state ack => (myss_state K g state ack).globals
  | .nf current target blob_size ss_create_ret =>
      (app_system_state_nf K sspc g current target blob_size ss_create_ret).globals
  | .sigint sig => sigint_handler g sig

/-- The globals after a finite sequence of callback invocations. -/
def run_events (K : Consts) (sspc : Bool) (g : Globals) (evs : List Event) : Globals :=
  evs.foldl (dispatch K sspc) g

/-- An invocation of `myss_rx` whose flags have `LWSSS_FLAG_EOM` set. -/
def Event.is_eom_rx (K : Consts) : Event → Bool
  | .rx _ _ flags => flag_set flags K.LWSSS_FLAG_EOM
  | _ => false

/-- What `lws_cmdline_option` finds for the four options of `main`; `timeout_ms`
holds the value of `atoi(p)` when `--timeout_ms` is present. -/
structure Cmdline where
  force_portal : Bool
  force_no_internet : Bool
  respmap : Bool
  timeout_ms : Option Int
  deriving DecidableEq

/-- The option handling at the start of `main`. -/
def main_options (g : Globals) (c : Cmdline) : Globals :=
  let g := if c.force_portal then { g with force_cpd_fail_portal := 1 } else g
  let g := if c.force_no_internet then { g with force_cpd_fail_no_internet := 1 } else g
  let g := if c.respmap then { g with test_respmap := 1 } else g
  match c.timeout_ms with
  | some v => { g with timeout_ms := (v % 2 ^ 32).toNat }
  | none => g

/-- One call of `lws_service`: the callbacks it (or a signal arriving by the time
it returns) invokes, and the value it returns. -/
structure ServiceRound where
  events : List Event
  ret : Int
  deriving DecidableEq

/-- The loop condition `n >= 0 && !interrupted`. -/
def loop_cond (n : Int) (g : Globals) : Bool :=
  decide (0 ≤ n) && decide (g.interrupted = 0)

/-- The event loop `while (n >= 0 && !interrupted) n = lws_service(context, 0);`
over a schedule of service rounds. The result is the globals on leaving the loop,
or `none` when the schedule ends with the loop still running. -/
def event_loop (K : Consts) (sspc : Bool) (g : Globals) (n : Int) :
    List ServiceRound → Option Globals
  | [] => if loop_cond n g then none else some g
  | r :: rest =>
      if loop_cond n g then event_loop K sspc (run_events K sspc g r.events) r.ret rest
      else some g

/-- The callback invocations the event loop gets to make on a schedule. -/
def loop_dispatched (K : Consts) (sspc : Bool) (g : Globals) (n : Int) :
    List ServiceRound → List Event
  | [] => []
  | r :: rest =>
      if loop_cond n g then
        r.events ++ loop_dispatched K sspc (run_events K sspc g r.events) r.ret rest
      else []

/-- The exit status of `main`. `startup` are the callbacks invoked before the loop
is entered, `context_created` tells whether `lws_create_context` succeeded, and
`rounds` is the schedule of the event loop; `none` when the loop is still running
at the end of the schedule. -/
def main (K : Consts) (sspc : Bool) (c : Cmdline) (context_created : Bool)
    (startup : List Event) (rounds : List ServiceRound) : Option Int :=
  let g := run_events K sspc (main_options Globals.initial c) startup
  if context_created then (event_loop K sspc g 0 rounds).map (fun g => g.bad)
  else some 1

/-! ## Policy model, overlay and retry engine -/

/-- Modelled from the spec: `resolve_retry_strategy(name)` of the Policy Model, a
lookup by exact name match with `none` for NotFound. The library code behind it is
not among the sources. -/
def resolve_retry_strategy (P : Policy) (name : String) : Option RetryStrategy :=
  P.retry.find? (fun r => r.name == name)

/-- Modelled from the spec: `resolve_trust_store(name)` of the Policy Model, a
lookup by exact name match with `none` for NotFound. The library code behind it is
not among the sources. -/
def resolve_trust_store (P : Policy) (name : String) : Option TrustStore :=
  P.trust_stores.find? (fun t => t.name == name)

/-- Modelled from the spec: `resolve_stream_template(name)` of the Policy Model, a
lookup by exact name match with `none` for NotFound. The library code behind it is
not among the sources. -/
def resolve_stream_template (P : Policy) (name : String) : Option StreamTemplate :=
  P.s.find? (fun t => t.name == name)

/-- Modelled from the spec: the certificate table lookup behind the trust store
invariant (every referenced certificate must exist in the certificate table). -/
def resolve_certificate (P : Policy) (name : String) : Option Certificate :=
  P.certs.find? (fun c => c.name == name)

/-- The name a template binds under the member `key` (`"retry"`,
`"tls_trust_store"`), if it has that member. -/
def StreamTemplate.bound_name (t : StreamTemplate) (key : String) : Option String :=
  match t.fields.lookup key with
  | some (.str n) => some n
  | _ => none

/-- Modelled from the spec: overlay merges by name. Entries in the overlay replace
same-named entries in the base, entries present only in the base remain, and
entries present only in the overlay are added after them. -/
def merge_by_name {α : Type} (name : α → String) (base ov : List α) : List α :=
  base.map (fun e => (ov.find? (fun o => name o == name e)).getD e) ++
    ov.filter (fun o => !(base.any (fun e => name e == name o)))

/-- Modelled from the spec: `overlay(base, text)` of the policy document loader on
parsed documents, merging each named collection by name; a top-level scalar member
is taken from the overlay when the overlay has it. The library code behind
`lws_ss_policy_overlay` is not among the sources. -/
def Policy.overlay (base ov : Policy) : Policy :=
  { release := ov.release <|> base.release
    product := ov.product <|> base.product
    schema_version := ov.schema_version <|> base.schema_version
    via_socks5 := ov.via_socks5 <|> base.via_socks5
    retry := merge_by_name RetryStrategy.name base.retry ov.retry
    certs := merge_by_name Certificate.name base.certs ov.certs
    trust_stores := merge_by_name TrustStore.name base.trust_stores ov.trust_stores
    s := merge_by_name StreamTemplate.name base.s ov.s }

/-- The policy after the `lws_ss_policy_overlay` calls of a call list have been
applied, in order, to `P`. -/
def apply_overlays (P : Policy) : List Call → Policy
  | [] => P
  | .lws_ss_policy_overlay ov :: rest => apply_overlays (P.overlay ov) rest
  | _ :: rest => apply_overlays P rest

/-- The overlay documents among a call list, in order. -/
def overlays_of : List Call → List Policy
  | [] => []
  | .lws_ss_policy_overlay ov :: rest => ov :: overlays_of rest
  | _ :: rest => overlays_of rest

/-- The stream types requested by the `lws_ss_create` calls of a call list. -/
def created_streamtypes : List Call → List String
  | [] => []
  | .lws_ss_create st :: rest => st :: created_streamtypes rest
  | _ :: rest => created_streamtypes rest

/-- The embedded retry strategy `default`. -/
def default_retry : RetryStrategy :=
  { name := "default", backoff := [1000, 2000, 3000, 5000, 10000], conceal := 5,
    jitterpc := 20, svalidping := 30, svalidhup := 35 }

/-- An overlay document that names nothing but stream templates called `name`: it has
no scalar member, no retry strategy, no certificate and no trust store. -/
def Policy.only_template (ov : Policy) (name : String) : Prop :=
  ov.release = none ∧ ov.product = none ∧ ov.schema_version = none ∧
  ov.via_socks5 = none ∧ ov.retry = [] ∧ ov.certs = [] ∧ ov.trust_stores = [] ∧
  ∀ t ∈ ov.s, t.name = name

/-! ## Sample inputs -/

/-- A schedule in which the second service round delivers a final receive. -/
def sample_rounds : List ServiceRound :=
  [ { events := [.nf 12 12 0 0, .state 0 0], ret := 0 },
    { events := [.rx [60, 104] 2 1, .rx [62] 1 2], ret := 0 },
    { events := [.rx [0] 1 2], ret := 0 } ]

/-- Command line without options. -/
def no_options : Cmdline :=
  { force_portal := false, force_no_internet := false, respmap := false,
    timeout_ms := none }

/-! ## Auxiliary facts -/

/-- An integer all of whose bits are clear is zero. -/
theorem int_eq_zero_of_testBit (x : Int) (h : ∀ i, x.testBit i = false) : x = 0 := by
  cases x with
  | ofNat m =>
    have : m = 0 := Nat.zero_of_testBit_eq_false (fun i => by simpa [Int.testBit] using h i)
    simp [this]
  | negSucc m =>
    exfalso
    have h1 := h m
    simp only [Int.testBit, Bool.not_eq_false'] at h1
    have h2 : m.testBit m = false := Nat.testBit_lt_two_pow (Nat.lt_two_pow m)
    rw [h1] at h2
    exact Bool.noConfusion h2

/-- The bits of a power of two. -/
theorem int_testBit_two_pow (k i : Nat) : ((2 : Int) ^ k).testBit i = decide (k = i) := by
  have : ((2 : Int) ^ k) = (((2 ^ k : Nat)) : Int) := by push_cast; rfl
  rw [this]
  show Nat.testBit (2 ^ k) i = _
  exact Nat.testBit_two_pow

/-- Masking with a single bit tests that bit. -/
theorem land_two_pow_ne_zero (flags : Int) (k : Nat) :
    (Int.land flags (2 ^ k) != 0) = flags.testBit k := by
  cases hb : flags.testBit k
  · have : Int.land flags (2 ^ k) = 0 := by
      apply int_eq_zero_of_testBit
      intro i
      rw [Int.testBit_land, int_testBit_two_pow]
      by_cases hki : k = i
      · subst hki; simp [hb]
      · simp [hki]
    simp [this]
  · have : Int.land flags (2 ^ k) ≠ 0 := by
      intro h0
      have := Int.testBit_land flags (2 ^ k) k
      rw [h0, int_testBit_two_pow, hb] at this
      have hz : Int.testBit 0 k = false := by
        show Nat.testBit 0 k = false
        exact Nat.zero_testBit k
      rw [hz] at this
      simp at this
    simpa using this

/-- With a single-bit mask, `flag_set` reads that bit of the flags. -/
theorem flag_set_two_pow (flags : Int) (k : Nat) :
    flag_set flags (2 ^ k) = flags.testBit k :=
  land_two_pow_ne_zero flags k

/-- The globals `myss_rx` leaves behind, as one equation. -/
theorem myss_rx_globals (K : Consts) (g : Globals) (buf : List Nat) (len : Nat)
    (flags : Int) :
    (myss_rx K g buf len flags).globals =
      if flag_set flags K.LWSSS_FLAG_EOM then { g with bad := 0, interrupted := 1 }
      else g := by
  unfold myss_rx
  split <;> rfl

/-- In every state but `LWSSSCS_CREATING` and `LWSSSCS_ALL_RETRIES_FAILED` the state
handler does nothing. -/
theorem myss_state_other (K : Consts) (g : Globals) (state : Int) (ack : Nat)
    (h1 : state ≠ K.LWSSSCS_CREATING) (h2 : state ≠ K.LWSSSCS_ALL_RETRIES_FAILED) :
    myss_state K g state ack = { ret := 0, globals := g, calls := [] } := by
  simp [myss_state, h1, h2]

/-- The state handler on `LWSSSCS_ALL_RETRIES_FAILED`. -/
theorem myss_state_all_retries_failed (K : Consts) (g : Globals) (state : Int) (ack : Nat)
    (h1 : state ≠ K.LWSSSCS_CREATING) (h2 : state = K.LWSSSCS_ALL_RETRIES_FAILED) :
    myss_state K g state ack =
      { ret := 0, globals := { g with interrupted := 1 }, calls := [] } := by
  unfold myss_state
  rw [if_neg h1, if_pos h2]

/-- The state handler on `LWSSSCS_CREATING`. -/
theorem myss_state_creating (K : Consts) (g : Globals) (state : Int) (ack : Nat)
    (h1 : state = K.LWSSSCS_CREATING) :
    myss_state K g state ack =
      { ret := 0, globals := g,
        calls := [Call.lws_ss_start_timeout g.timeout_ms,
                  Call.lws_ss_set_metadata "uptag" "myuptag123" 10,
                  Call.lws_ss_set_metadata "ctype" "myctype" 7,
                  Call.lws_ss_client_connect] } := by
  unfold myss_state
  rw [if_pos h1]

/-- The globals `myss_state` leaves behind, as one equation. -/
theorem myss_state_globals (K : Consts) (g : Globals) (state : Int) (ack : Nat) :
    (myss_state K g state ack).globals =
      if state ≠ K.LWSSSCS_CREATING ∧ state = K.LWSSSCS_ALL_RETRIES_FAILED then
        { g with interrupted := 1 }
      else g := by
  by_cases h1 : state = K.LWSSSCS_CREATING
  · rw [myss_state_creating K g state ack h1, if_neg (fun h => h.1 h1)]
  · by_cases h2 : state = K.LWSSSCS_ALL_RETRIES_FAILED
    · rw [myss_state_all_retries_failed K g state ack h1 h2, if_pos ⟨h1, h2⟩]
    · rw [myss_state_other K g state ack h1 h2, if_neg (fun h => h2 h.2)]

/-- The notifier never writes a global. -/
theorem app_system_state_nf_globals (K : Consts) (sspc : Bool) (g : Globals)
    (current target : Int) (blob_size : Nat) (ss_create_ret : Int) :
    (app_system_state_nf K sspc g current target blob_size ss_create_ret).globals = g := by
  unfold app_system_state_nf nf_operational
  repeat (first | rfl | split)

/-- The globals after one more callback: only `bad` and `interrupted` can change, and
only in the two ways the program text allows. -/
theorem dispatch_globals (K : Consts) (sspc : Bool) (g : Globals) (e : Event) :
    dispatch K sspc g e = g ∨ dispatch K sspc g e = { g with interrupted := 1 } ∨
      (e.is_eom_rx K = true ∧ dispatch K sspc g e = { g with bad := 0, interrupted := 1 }) := by
  cases e with
  | rx buf len flags =>
    simp only [dispatch, Event.is_eom_rx, myss_rx_globals]
    by_cases h : flag_set flags K.LWSSS_FLAG_EOM = true
    · simp [h]
    · simp [h]
  | tx ord buf len flags => left; rfl
  | state state ack =>
    simp only [dispatch, myss_state_globals]
    split
    · right; left; rfl
    · left; rfl
  | nf current target blob_size ss_create_ret =>
    left; exact app_system_state_nf_globals K sspc g current target blob_size ss_create_ret
  | sigint sig => right; left; rfl

/-- The value of `bad` after one more callback. -/
theorem dispatch_bad (K : Consts) (sspc : Bool) (g : Globals) (e : Event) :
    (dispatch K sspc g e).bad = if e.is_eom_rx K then 0 else g.bad := by
  cases e with
  | rx buf len flags =>
    simp only [dispatch, Event.is_eom_rx, myss_rx_globals]
    split <;> rfl
  | tx ord buf len flags => rfl
  | state state ack =>
    simp only [dispatch, myss_state_globals, Event.is_eom_rx]
    split <;> simp
  | nf current target blob_size ss_create_ret =>
    simp [dispatch, app_system_state_nf_globals, Event.is_eom_rx]
  | sigint sig => rfl

/-- Running a sequence of callbacks in two parts. -/
theorem run_events_append (K : Consts) (sspc : Bool) (g : Globals) (xs ys : List Event) :
    run_events K sspc g (xs ++ ys) = run_events K sspc (run_events K sspc g xs) ys := by
  simp [run_events, List.foldl_append]

/-- The value of `bad` after a sequence of callbacks. -/
theorem run_events_bad (K : Consts) (sspc : Bool) (evs : List Event) (g : Globals) :
    (run_events K sspc g evs).bad = if evs.any (Event.is_eom_rx K) then 0 else g.bad := by
  induction evs generalizing g with
  | nil => simp [run_events]
  | cons e rest ih =>
    have hstep : run_events K sspc g (e :: rest) =
        run_events K sspc (dispatch K sspc g e) rest := rfl
    rw [hstep, ih, dispatch_bad]
    by_cases he : e.is_eom_rx K = true
    · simp [he]
    · simp [he]

/-- The option-derived globals are never written by a callback. -/
theorem run_events_config (K : Consts) (sspc : Bool) (evs : List Event) (g : Globals) :
    (run_events K sspc g evs).timeout_ms = g.timeout_ms ∧
    (run_events K sspc g evs).test_respmap = g.test_respmap ∧
    (run_events K sspc g evs).force_cpd_fail_portal = g.force_cpd_fail_portal ∧
    (run_events K sspc g evs).force_cpd_fail_no_internet = g.force_cpd_fail_no_internet := by
  induction evs generalizing g with
  | nil => simp [run_events]
  | cons e rest ih =>
    have hstep : run_events K sspc g (e :: rest) =
        run_events K sspc (dispatch K sspc g e) rest := rfl
    rw [hstep]
    have := ih (dispatch K sspc g e)
    rcases dispatch_globals K sspc g e with h1 | h1 | ⟨_, h1⟩ <;> rw [h1] at this ⊢ <;>
      exact this

/-- Option handling leaves `bad` at 1 and `interrupted` at 0. -/
theorem main_options_bad (c : Cmdline) :
    (main_options Globals.initial c).bad = 1 ∧
    (main_options Globals.initial c).interrupted = 0 := by
  rcases c with ⟨a, b, r, t⟩
  cases a <;> cases b <;> cases r <;> cases t <;> simp [main_options, Globals.initial]

/-- On leaving the event loop the globals are those reached by the callbacks the
loop dispatched. -/
theorem event_loop_eq_run (K : Consts) (sspc : Bool) (rounds : List ServiceRound)
    (g : Globals) (n : Int) (g1 : Globals)
    (h : event_loop K sspc g n rounds = some g1) :
    g1 = run_events K sspc g (loop_dispatched K sspc g n rounds) := by
  induction rounds generalizing g n with
  | nil =>
    simp only [event_loop] at h
    split at h
    · exact Option.noConfusion h
    · simpa [loop_dispatched, run_events] using h.symm
  | cons r rest ih =>
    simp only [event_loop] at h
    simp only [loop_dispatched]
    split at h
    · rename_i hc
      rw [if_pos hc, run_events_append]
      exact ih _ _ h
    · rename_i hc
      rw [if_neg hc]
      simpa [run_events] using h.symm

/-- C1: starting from the initial globals (after the option handling of `main`, for
any options), after every finite sequence of callback invocations `bad` is 0 if at
least one `myss_rx` invocation had `LWSSS_FLAG_EOM` set and 1 otherwise; it holds
only 0 or 1, it stays 0 once it is 0, and whenever `main` leaves the event loop the
exit status it returns is 0 exactly if one of the callbacks invoked before or in the
loop was such a receive, else 1. -/
theorem exit_status_reflects_eom (K : Consts) (sspc : Bool) (c : Cmdline)
    (evs : List Event) :
    ((run_events K sspc (main_options Globals.initial c) evs).bad =
        if evs.any (Event.is_eom_rx K) then 0 else 1) ∧
    ((run_events K sspc (main_options Globals.initial c) evs).bad = 0 ↔
        ∃ e ∈ evs, e.is_eom_rx K = true) ∧
    ((run_events K sspc (main_options Globals.initial c) evs).bad = 0 ∨
        (run_events K sspc (main_options Globals.initial c) evs).bad = 1) ∧
    (∀ more : List Event,
        (run_events K sspc (main_options Globals.initial c) evs).bad = 0 →
        (run_events K sspc (main_options Globals.initial c) (evs ++ more)).bad = 0) ∧
    (∀ (rounds : List ServiceRound) (status : Int),
        main K sspc c true evs rounds = some status →
        status =
          if (evs ++ loop_dispatched K sspc
                (run_events K sspc (main_options Globals.initial c) evs) 0 rounds).any
              (Event.is_eom_rx K)
          then 0 else 1) := by
  have hbad := run_events_bad K sspc evs (main_options Globals.initial c)
  rw [(main_options_bad c).1] at hbad
  refine ⟨hbad, ?_, ?_, ?_, ?_⟩
  · rw [hbad]
    by_cases h : evs.any (Event.is_eom_rx K) = true
    · simp only [h, if_true, true_iff]
      simpa [List.any_eq_true] using h
    · simp only [h, if_false]
      constructor
      · intro h1; exact absurd h1 (by decide)
      · intro h1; exact absurd (by simpa [List.any_eq_true] using h1) h
  · rw [hbad]
    by_cases h : evs.any (Event.is_eom_rx K) = true
    · left; simp [h]
    · right; simp [h]
  · intro more h0
    rw [run_events_append, run_events_bad, h0]
    simp
  · intro rounds status hmain
    simp only [main, if_true, Option.map_eq_some'] at hmain
    obtain ⟨g1, hloop, rfl⟩ := hmain
    have hg1 := event_loop_eq_run K sspc rounds _ 0 g1 hloop
    rw [hg1, ← run_events_append, run_events_bad, (main_options_bad c).1]

/-- C1 instantiated: on the sample schedule the second service round delivers a
final receive, the loop is left after it and the exit status is 0. -/
theorem exit_status_reflects_eom_witness :
    main sample_consts false no_options true [] sample_rounds = some 0 ∧
    (0 : Int) =
      if (([] : List Event) ++ loop_dispatched sample_consts false
            (run_events sample_consts false (main_options Globals.initial no_options) [])
            0 sample_rounds).any (Event.is_eom_rx sample_consts)
      then 0 else 1 :=
  ⟨by decide,
   (exit_status_reflects_eom sample_consts false no_options []).2.2.2.2 sample_rounds 0
     (by decide)⟩

/-- C2: `myss_rx` returns 0 for every buffer, length and flags; with
`LWSSS_FLAG_EOM` set in the flags it sets `bad` to 0 and `interrupted` to 1 (and
nothing else), with it clear it leaves all globals unchanged; and when the mask is
the single bit `k`, being set means bit `k` of the flags is 1. -/
theorem myss_rx_contract (K : Consts) (g : Globals) (buf : List Nat) (len : Nat)
    (flags : Int) :
    (myss_rx K g buf len flags).ret = 0 ∧
    (flag_set flags K.LWSSS_FLAG_EOM = true →
      (myss_rx K g buf len flags).globals = { g with bad := 0, interrupted := 1 }) ∧
    (flag_set flags K.LWSSS_FLAG_EOM = false →
      (myss_rx K g buf len flags).globals = g) ∧
    (∀ k : Nat, K.LWSSS_FLAG_EOM = 2 ^ k →
      flag_set flags K.LWSSS_FLAG_EOM = flags.testBit k) := by
  refine ⟨?_, ?_, ?_, ?_⟩
  · unfold myss_rx; split <;> rfl
  · intro h; rw [myss_rx_globals, if_pos h]
  · intro h; rw [myss_rx_globals, h]; rfl
  · intro k hk; rw [hk]; exact flag_set_two_pow flags k

/-- C2 instantiated: a receive with flags 3 (start and end of message) on the
initial globals. -/
theorem myss_rx_contract_witness :
    flag_set 3 sample_consts.LWSSS_FLAG_EOM = true ∧
    (myss_rx sample_consts Globals.initial [104, 105] 2 3).globals =
      { Globals.initial with bad := 0, interrupted := 1 } :=
  ⟨by decide,
   (myss_rx_contract sample_consts Globals.initial [104, 105] 2 3).2.1 (by decide)⟩

/-- C3: the library calls `myss_state` makes are, in state `LWSSSCS_CREATING`,
exactly start_timeout(timeout_ms), set_metadata("uptag", "myuptag123", 10),
set_metadata("ctype", "myctype", 7), client_connect in that order, and none at all in
every other state, in particular none on `LWSSSCS_ALL_RETRIES_FAILED` or
`LWSSSCS_TIMEOUT`; each metadata length is the byte length of its value; and the
`timeout_ms` armed is 3000 when `--timeout_ms` is not given, whatever callbacks ran
before, and the given value (as an unsigned int) when it is. -/
theorem myss_state_session_actions (K : Consts) (hK : K.state_labels_distinct)
    (g : Globals) (state : Int) (ack : Nat) :
    (state = K.LWSSSCS_CREATING →
      (myss_state K g state ack).calls =
        [Call.lws_ss_start_timeout g.timeout_ms,
         Call.lws_ss_set_metadata "uptag" "myuptag123" 10,
         Call.lws_ss_set_metadata "ctype" "myctype" 7,
         Call.lws_ss_client_connect]) ∧
    (state ≠ K.LWSSSCS_CREATING → (myss_state K g state ack).calls = []) ∧
    ((myss_state K g state ack).calls.count Call.lws_ss_client_connect =
      if state = K.LWSSSCS_CREATING then 1 else 0) ∧
    (myss_state K g K.LWSSSCS_ALL_RETRIES_FAILED ack).calls = [] ∧
    (myss_state K g K.LWSSSCS_TIMEOUT ack).calls = [] ∧
    ("myuptag123".utf8ByteSize = 10 ∧ "myctype".utf8ByteSize = 7) ∧
    Globals.initial.timeout_ms = 3000 ∧
    (∀ (sspc : Bool) (c : Cmdline) (evs : List Event),
      (run_events K sspc (main_options Globals.initial c) evs).timeout_ms =
        match c.timeout_ms with
        | none => 3000
        | some v => (v % 2 ^ 32).toNat) := by
  have hcalls : state ≠ K.LWSSSCS_CREATING → (myss_state K g state ack).calls = [] := by
    intro h1
    by_cases h2 : state = K.LWSSSCS_ALL_RETRIES_FAILED
    · rw [myss_state_all_retries_failed K g state ack h1 h2]
    · rw [myss_state_other K g state ack h1 h2]
  have hd : K.LWSSSCS_ALL_RETRIES_FAILED ≠ K.LWSSSCS_CREATING ∧
      K.LWSSSCS_TIMEOUT ≠ K.LWSSSCS_CREATING ∧
      K.LWSSSCS_TIMEOUT ≠ K.LWSSSCS_ALL_RETRIES_FAILED := by
    simp [Consts.state_labels_distinct] at hK
    exact ⟨fun h => hK.1.1 h.symm, fun h => hK.1.2.2.1 h.symm, fun h => hK.2.1.2.1 h.symm⟩
  refine ⟨?_, hcalls, ?_, ?_, ?_, ⟨by decide, by decide⟩, rfl, ?_⟩
  · intro h; rw [myss_state_creating K g state ack h]
  · by_cases h : state = K.LWSSSCS_CREATING
    · rw [myss_state_creating K g state ack h, if_pos h]
      simp [List.count_cons]
    · rw [hcalls h, if_neg h]; rfl
  · rw [myss_state_all_retries_failed K g _ ack hd.1 rfl]
  · rw [myss_state_other K g _ ack hd.2.1 hd.2.2]
  · intro sspc c evs
    rw [(run_events_config K sspc evs _).1]
    rcases c with ⟨a, b, r, t⟩
    cases a <;> cases b <;> cases r <;> cases t <;> simp [main_options, Globals.initial]

/-- C3 instantiated: the state handler on `LWSSSCS_CREATING` with the initial
globals arms 3000 ms and then connects. -/
theorem myss_state_session_actions_witness :
    sample_consts.state_labels_distinct ∧
    (myss_state sample_consts Globals.initial 0 0).calls =
      [Call.lws_ss_start_timeout 3000,
       Call.lws_ss_set_metadata "uptag" "myuptag123" 10,
       Call.lws_ss_set_metadata "ctype" "myctype" 7,
       Call.lws_ss_client_connect] :=
  ⟨by decide,
   (myss_state_session_actions sample_consts (by decide) Globals.initial 0 0).1 rfl⟩

/-- No stream is created by the overlay arm of the notifier. -/
theorem created_streamtypes_overlay (g : Globals) (current target : Int) :
    created_streamtypes (nf_overlay_calls g current target) = [] := by
  unfold nf_overlay_calls
  split
  · rfl
  · split <;> split <;> rfl

/-- No stream is created by the registration arm of the notifier. -/
theorem created_streamtypes_registered (blob_size : Nat) :
    created_streamtypes (nf_registered_calls blob_size) = [] := by
  unfold nf_registered_calls
  split <;> rfl

/-- With target `LWS_SYSTATE_OPERATIONAL` the notifier runs its last arm. -/
theorem app_system_state_nf_operational (K : Consts) (hK : K.systate_labels_distinct)
    (sspc : Bool) (g : Globals) (current target : Int) (blob_size : Nat)
    (ss_create_ret : Int) (ht : target = K.LWS_SYSTATE_OPERATIONAL) :
    app_system_state_nf K sspc g current target blob_size ss_create_ret =
      nf_operational K g current ss_create_ret := by
  simp [Consts.systate_labels_distinct] at hK
  have h1 : ¬ (target = K.LWS_SYSTATE_INITIALIZED ∨ target = K.LWS_SYSTATE_POLICY_VALID) := by
    rw [ht]
    rintro (h | h)
    · exact hK.1.2.2 h.symm
    · exact hK.2.1.2 h.symm
  have h2 : ¬ target = K.LWS_SYSTATE_REGISTERED := by
    rw [ht]; exact fun h => hK.2.2 h.symm
  unfold app_system_state_nf
  rw [if_neg (fun h => h1 h.2), if_neg (fun h => h2 h.2), if_pos ht]

/-- With any other target the notifier creates no stream and returns 0. -/
theorem app_system_state_nf_not_operational (K : Consts) (sspc : Bool) (g : Globals)
    (current target : Int) (blob_size : Nat) (ss_create_ret : Int)
    (ht : target ≠ K.LWS_SYSTATE_OPERATIONAL) :
    created_streamtypes
        (app_system_state_nf K sspc g current target blob_size ss_create_ret).calls = [] ∧
      (app_system_state_nf K sspc g current target blob_size ss_create_ret).ret = 0 := by
  unfold app_system_state_nf
  split
  · exact ⟨created_streamtypes_overlay g current target, rfl⟩
  · split
    · exact ⟨created_streamtypes_registered blob_size, rfl⟩
    · exact ⟨rfl, rfl⟩

/-- C5: for every (current, target), in either build, `app_system_state_nf` calls
`lws_ss_create` exactly once if target = current = `LWS_SYSTATE_OPERATIONAL` and not
at all otherwise, asking for "respmap" if `test_respmap` is set and for "mintest"
otherwise; it returns -1 exactly if that creation was attempted and returned
non-zero, and 0 in every other case; it writes no global. -/
theorem app_system_state_nf_create (K : Consts) (hK : K.systate_labels_distinct)
    (sspc : Bool) (g : Globals) (current target : Int) (blob_size : Nat)
    (ss_create_ret : Int) :
    (created_streamtypes
        (app_system_state_nf K sspc g current target blob_size ss_create_ret).calls =
      if target = K.LWS_SYSTATE_OPERATIONAL ∧ current = K.LWS_SYSTATE_OPERATIONAL then
        [if g.test_respmap ≠ 0 then "respmap" else "mintest"]
      else []) ∧
    ((app_system_state_nf K sspc g current target blob_size ss_create_ret).ret = -1 ↔
      target = K.LWS_SYSTATE_OPERATIONAL ∧ current = K.LWS_SYSTATE_OPERATIONAL ∧
        ss_create_ret ≠ 0) ∧
    ((app_system_state_nf K sspc g current target blob_size ss_create_ret).ret ≠ -1 →
      (app_system_state_nf K sspc g current target blob_size ss_create_ret).ret = 0) ∧
    (app_system_state_nf K sspc g current target blob_size ss_create_ret).globals = g := by
  refine ⟨?_, ?_, ?_, app_system_state_nf_globals K sspc g current target blob_size
    ss_create_ret⟩
  · by_cases ht : target = K.LWS_SYSTATE_OPERATIONAL
    · rw [app_system_state_nf_operational K hK sspc g current target blob_size
        ss_create_ret ht]
      by_cases hc : current = K.LWS_SYSTATE_OPERATIONAL
      · by_cases hr : ss_create_ret = 0
        · by_cases hm : g.test_respmap = 0 <;>
            simp [nf_operational, hc, ht, hr, hm, created_streamtypes]
        · by_cases hm : g.test_respmap = 0 <;>
            simp [nf_operational, hc, ht, hr, hm, created_streamtypes]
      · simp [nf_operational, hc, created_streamtypes]
    · rw [(app_system_state_nf_not_operational K sspc g current target blob_size
        ss_create_ret ht).1, if_neg (fun h => ht h.1)]
  · by_cases ht : target = K.LWS_SYSTATE_OPERATIONAL
    · rw [app_system_state_nf_operational K hK sspc g current target blob_size
        ss_create_ret ht]
      unfold nf_operational
      by_cases hc : current = K.LWS_SYSTATE_OPERATIONAL
      · rw [if_pos hc]
        by_cases hr : ss_create_ret = 0
        · simp [hr, ht, hc]
        · simp [hr, ht, hc]
      · rw [if_neg hc]
        simp [hc]
    · rw [(app_system_state_nf_not_operational K sspc g current target blob_size
        ss_create_ret ht).2]
      simp [ht]
  · by_cases ht : target = K.LWS_SYSTATE_OPERATIONAL
    · rw [app_system_state_nf_operational K hK sspc g current target blob_size
        ss_create_ret ht]
      by_cases hc : current = K.LWS_SYSTATE_OPERATIONAL
      · by_cases hr : ss_create_ret = 0
        · simp [nf_operational, hc, hr]
        · simp [nf_operational, hc, hr]
      · simp [nf_operational, hc]
    · intro _
      exact (app_system_state_nf_not_operational K sspc g current target blob_size
        ss_create_ret ht).2

/-- C5 instantiated: at (operational, operational) with `--respmap` given and a
failing creation the notifier asks for "respmap" once and returns -1. -/
theorem app_system_state_nf_create_witness :
    sample_consts.systate_labels_distinct ∧
    created_streamtypes
        (app_system_state_nf sample_consts false
          (main_options Globals.initial { no_options with respmap := true }) 12 12 0 1).calls =
      ["respmap"] ∧
    (app_system_state_nf sample_consts false
          (main_options Globals.initial { no_options with respmap := true }) 12 12 0 1).ret
      = -1 :=
  ⟨by decide,
   (app_system_state_nf_create sample_consts (by decide) false
      (main_options Globals.initial { no_options with respmap := true }) 12 12 0 1).1,
   by decide⟩

/-- C6: for every ordinal and every prior content of the buffer, the length and the
flags, `myss_tx` returns `LWSSSSRET_TX_DONT_SEND`, leaves buffer, length and flags
as they were, makes no library call and changes no global. -/
theorem myss_tx_declines (K : Consts) (g : Globals) (ord : Nat) (buf : List Nat)
    (len : Nat) (flags : Int) :
    (myss_tx K g ord buf len flags).ret = K.LWSSSSRET_TX_DONT_SEND ∧
    (myss_tx K g ord buf len flags).buf = buf ∧
    (myss_tx K g ord buf len flags).len = len ∧
    (myss_tx K g ord buf len flags).flags = flags ∧
    (myss_tx K g ord buf len flags).globals = g ∧
    (myss_tx K g ord buf len flags).calls = [] ∧
    (∀ sspc : Bool, dispatch K sspc g (Event.tx ord buf len flags) = g) :=
  ⟨rfl, rfl, rfl, rfl, rfl, rfl, fun _ => rfl⟩

/-- C6 instantiated: a transmit request on the initial globals. -/
theorem myss_tx_declines_witness :
    (myss_tx sample_consts Globals.initial 0 [1, 2, 3] 3 0).ret = 1 ∧
    (myss_tx sample_consts Globals.initial 0 [1, 2, 3] 3 0).buf = [1, 2, 3] :=
  ⟨(myss_tx_declines sample_consts Globals.initial 0 [1, 2, 3] 3 0).1,
   (myss_tx_declines sample_consts Globals.initial 0 [1, 2, 3] 3 0).2.1⟩

/-! ## The embedded policy -/

/-- C7: in either variant of its text the embedded default policy has unique names
within its retry strategies, certificates, trust stores and stream templates; its
only retry strategy, default, has the non-empty backoff sequence
[1000, 2000, 3000, 5000, 10000] and conceal 5, which is at most the sequence length
5; every certificate on the stack of its trust store le_via_isrg (isrg_root_x1,
LEX3_isrg_root_x1) is in the certificate table; fetch_policy binds default and
le_via_isrg, captive_portal_detect binds neither; and every retry strategy and trust
store name bound by a template resolves. -/
theorem default_ss_policy_invariants (via_socks : Bool) :
    ((default_ss_policy via_socks).retry.map RetryStrategy.name).Nodup ∧
    ((default_ss_policy via_socks).certs.map Certificate.name).Nodup ∧
    ((default_ss_policy via_socks).trust_stores.map TrustStore.name).Nodup ∧
    ((default_ss_policy via_socks).s.map StreamTemplate.name).Nodup ∧
    (default_ss_policy via_socks).retry.map RetryStrategy.name = ["default"] ∧
    (∃ r, resolve_retry_strategy (default_ss_policy via_socks) "default" = some r ∧
      r.backoff = [1000, 2000, 3000, 5000, 10000] ∧ r.backoff ≠ [] ∧ r.conceal = 5 ∧
      r.backoff.length = 5 ∧ r.conceal ≤ r.backoff.length) ∧
    (default_ss_policy via_socks).trust_stores.map TrustStore.name = ["le_via_isrg"] ∧
    (∃ ts, resolve_trust_store (default_ss_policy via_socks) "le_via_isrg" = some ts ∧
      ts.stack = ["isrg_root_x1", "LEX3_isrg_root_x1"]) ∧
    (∀ ts ∈ (default_ss_policy via_socks).trust_stores, ∀ cn ∈ ts.stack,
      (resolve_certificate (default_ss_policy via_socks) cn).isSome = true) ∧
    (default_ss_policy via_socks).s.map
        (fun t => (t.name, t.bound_name "retry", t.bound_name "tls_trust_store")) =
      [("fetch_policy", some "default", some "le_via_isrg"),
       ("captive_portal_detect", none, none)] ∧
    (∀ t ∈ (default_ss_policy via_socks).s, ∀ n : String,
      t.bound_name "retry" = some n →
        (resolve_retry_strategy (default_ss_policy via_socks) n).isSome = true) ∧
    (∀ t ∈ (default_ss_policy via_socks).s, ∀ n : String,
      t.bound_name "tls_trust_store" = some n →
        (resolve_trust_store (default_ss_policy via_socks) n).isSome = true) := by
  revert via_socks
  have key : ∀ P : Policy,
      P.s.map (fun t => (t.name, t.bound_name "retry", t.bound_name "tls_trust_store")) =
        [("fetch_policy", some "default", some "le_via_isrg"),
         ("captive_portal_detect", none, none)] →
      (resolve_retry_strategy P "default").isSome = true →
      (resolve_trust_store P "le_via_isrg").isSome = true →
      (∀ t ∈ P.s, ∀ n : String, t.bound_name "retry" = some n →
        (resolve_retry_strategy P n).isSome = true) ∧
      (∀ t ∈ P.s, ∀ n : String, t.bound_name "tls_trust_store" = some n →
        (resolve_trust_store P n).isSome = true) := by
    intro P hb hr ht
    constructor
    · intro t hmem n hn
      have hm := List.mem_map_of_mem
        (fun t => (t.name, t.bound_name "retry", t.bound_name "tls_trust_store")) hmem
      rw [hb] at hm
      simp only [hn] at hm
      simp at hm
      rw [hm.2.1]; exact hr
    · intro t hmem n hn
      have hm := List.mem_map_of_mem
        (fun t => (t.name, t.bound_name "retry", t.bound_name "tls_trust_store")) hmem
      rw [hb] at hm
      simp only [hn] at hm
      simp at hm
      rw [hm.2.2]; exact ht
  intro via_socks
  cases via_socks
  · exact ⟨by decide, by decide, by decide, by decide, by decide,
      ⟨default_retry, by decide, by decide, by decide, by decide, by decide, by decide⟩,
      by decide,
      ⟨{ name := "le_via_isrg", stack := ["isrg_root_x1", "LEX3_isrg_root_x1"] },
        by decide, rfl⟩,
      by decide, by decide,
      key (default_ss_policy false) (by decide) (by decide) (by decide)⟩
  · exact ⟨by decide, by decide, by decide, by decide, by decide,
      ⟨default_retry, by decide, by decide, by decide, by decide, by decide, by decide⟩,
      by decide,
      ⟨{ name := "le_via_isrg", stack := ["isrg_root_x1", "LEX3_isrg_root_x1"] },
        by decide, rfl⟩,
      by decide, by decide,
      key (default_ss_policy true) (by decide) (by decide) (by decide)⟩

/-- C7 instantiated: the template fetch_policy of the embedded policy binds the retry
strategy default, which resolves. -/
theorem default_ss_policy_invariants_witness :
    (resolve_retry_strategy (default_ss_policy false) "default").isSome = true :=
  (default_ss_policy_invariants false).2.2.2.2.2.2.2.2.2.2.1
    { name := "fetch_policy"
      fields := [
        ("endpoint", .str "warmcat.com"),
        ("port", .num 443),
        ("protocol", .str "h1"),
        ("http_method", .str "GET"),
        ("http_url", .str "policy/minimal-proxy-2.json"),
        ("tls", .bool true),
        ("opportunistic", .bool true),
        ("retry", .str "default"),
        ("tls_trust_store", .str "le_via_isrg") ] }
    (by decide) "default" (by decide)

/-- The only stream type the notifier ever asks for is the one selected by
`test_respmap`. -/
theorem created_streamtypes_nf (K : Consts) (sspc : Bool) (g : Globals)
    (current target : Int) (blob_size : Nat) (ss_create_ret : Int) :
    ∀ st ∈ created_streamtypes
        (app_system_state_nf K sspc g current target blob_size ss_create_ret).calls,
      st = if g.test_respmap ≠ 0 then "respmap" else "mintest" := by
  unfold app_system_state_nf
  split
  · rw [created_streamtypes_overlay]; intro st h; cases h
  · split
    · rw [created_streamtypes_registered]; intro st h; cases h
    · split
      · unfold nf_operational
        split
        · split <;> split <;> (intro st h; simpa [created_streamtypes] using h)
        · intro st h; cases h
      · intro st h; cases h

/-- C10: the stream template names of the embedded default policy are exactly
fetch_policy and captive_portal_detect; neither "mintest" nor "respmap" is among
them; so every stream type the notifier requests, for any value of `test_respmap`,
fails to resolve by exact name against the embedded policy alone. -/
theorem app_streamtype_not_in_default_policy (K : Consts) (sspc via_socks : Bool)
    (g : Globals) (current target : Int) (blob_size : Nat) (ss_create_ret : Int) :
    (default_ss_policy via_socks).s.map StreamTemplate.name =
      ["fetch_policy", "captive_portal_detect"] ∧
    "mintest" ∉ (default_ss_policy via_socks).s.map StreamTemplate.name ∧
    "respmap" ∉ (default_ss_policy via_socks).s.map StreamTemplate.name ∧
    resolve_stream_template (default_ss_policy via_socks) "mintest" = none ∧
    resolve_stream_template (default_ss_policy via_socks) "respmap" = none ∧
    resolve_stream_template (default_ss_policy via_socks)
      (if g.test_respmap ≠ 0 then "respmap" else "mintest") = none ∧
    (∀ st ∈ created_streamtypes
        (app_system_state_nf K sspc g current target blob_size ss_create_ret).calls,
      resolve_stream_template (default_ss_policy via_socks) st = none) := by
  have h1 : resolve_stream_template (default_ss_policy via_socks) "mintest" = none := by
    cases via_socks <;> decide
  have h2 : resolve_stream_template (default_ss_policy via_socks) "respmap" = none := by
    cases via_socks <;> decide
  have h3 : resolve_stream_template (default_ss_policy via_socks)
      (if g.test_respmap ≠ 0 then "respmap" else "mintest") = none := by
    split
    · exact h2
    · exact h1
  refine ⟨by cases via_socks <;> decide, by cases via_socks <;> decide,
    by cases via_socks <;> decide, h1, h2, h3, ?_⟩
  intro st hst
  rw [created_streamtypes_nf K sspc g current target blob_size ss_create_ret st hst]
  exact h3

/-- C10 instantiated: the stream type requested at (operational, operational)
without `--respmap` is "mintest", which the embedded policy does not define. -/
theorem app_streamtype_not_in_default_policy_witness :
    "mintest" ∈ created_streamtypes
        (app_system_state_nf sample_consts false Globals.initial 12 12 0 0).calls ∧
    resolve_stream_template (default_ss_policy false) "mintest" = none :=
  ⟨by decide,
   (app_streamtype_not_in_default_policy sample_consts false false Globals.initial 12 12 0
      0).2.2.2.2.2.2 "mintest" (by decide)⟩

/-! ## Policy overlay -/

/-- Merging an empty overlay changes nothing. -/
theorem merge_by_name_nil {α : Type} (name : α → String) (base : List α) :
    merge_by_name name base [] = base := by
  simp [merge_by_name]

/-- Merging leaves the lookup of every name the overlay does not mention as it was. -/
theorem find_merge_by_name {α : Type} (name : α → String) (base ov : List α) (n : String)
    (h : ∀ o ∈ ov, name o ≠ n) :
    (merge_by_name name base ov).find? (fun e => name e == n) =
      base.find? (fun e => name e == n) := by
  unfold merge_by_name
  have hov : ∀ q : α → Bool, (ov.filter q).find? (fun e => name e == n) = none := by
    intro q
    rw [List.find?_eq_none]
    intro o ho
    have := h o (List.mem_of_mem_filter ho)
    simpa using this
  rw [List.find?_append, hov, Option.or_none]
  induction base with
  | nil => rfl
  | cons e rest ih =>
    rw [List.map_cons, List.find?_cons, List.find?_cons]
    by_cases he : name e = n
    · have hnone : ov.find? (fun o => name o == name e) = none := by
        rw [List.find?_eq_none]
        intro o ho
        have := h o ho
        rw [he]
        simpa using this
      rw [hnone]
      simp [he]
    · have hne : name ((ov.find? (fun o => name o == name e)).getD e) ≠ n := by
        cases hf : ov.find? (fun o => name o == name e) with
        | none => simpa using he
        | some o =>
          have := List.find?_some hf
          simp only [beq_iff_eq] at this
          simp only [Option.getD_some]
          rw [this]; exact he
      have h1 : (name ((ov.find? (fun o => name o == name e)).getD e) == n) = false := by
        simpa using hne
      have h2 : (name e == n) = false := by simpa using he
      rw [h1, h2]
      exact ih

/-- Applying the overlay calls of a call list folds `Policy.overlay` over its
overlay documents. -/
theorem apply_overlays_eq_foldl (calls : List Call) (P : Policy) :
    apply_overlays P calls = (overlays_of calls).foldl Policy.overlay P := by
  induction calls generalizing P with
  | nil => rfl
  | cons c rest ih =>
    cases c <;> simp [apply_overlays, overlays_of, ih]

/-- An overlay naming only templates called `name` leaves everything else in place. -/
theorem overlay_only_template (P ov : Policy) (name : String)
    (h : ov.only_template name) :
    (P.overlay ov).release = P.release ∧ (P.overlay ov).product = P.product ∧
    (P.overlay ov).schema_version = P.schema_version ∧
    (P.overlay ov).via_socks5 = P.via_socks5 ∧
    (P.overlay ov).retry = P.retry ∧ (P.overlay ov).certs = P.certs ∧
    (P.overlay ov).trust_stores = P.trust_stores ∧
    (∀ n : String, n ≠ name →
      resolve_stream_template (P.overlay ov) n = resolve_stream_template P n) := by
  obtain ⟨h1, h2, h3, h4, h5, h6, h7, h8⟩ := h
  refine ⟨?_, ?_, ?_, ?_, ?_, ?_, ?_, ?_⟩
  · simp [Policy.overlay, h1]
  · simp [Policy.overlay, h2]
  · simp [Policy.overlay, h3]
  · simp [Policy.overlay, h4]
  · simp [Policy.overlay, h5, merge_by_name_nil]
  · simp [Policy.overlay, h6, merge_by_name_nil]
  · simp [Policy.overlay, h7, merge_by_name_nil]
  · intro n hn
    unfold resolve_stream_template
    simp only [Policy.overlay]
    apply find_merge_by_name
    intro o ho
    rw [h8 o ho]
    exact fun h => hn h.symm

/-- A sequence of such overlays leaves everything else in place. -/
theorem foldl_overlay_only_template (ovs : List Policy) (P : Policy) (name : String)
    (h : ∀ ov ∈ ovs, ov.only_template name) :
    (ovs.foldl Policy.overlay P).release = P.release ∧
    (ovs.foldl Policy.overlay P).product = P.product ∧
    (ovs.foldl Policy.overlay P).schema_version = P.schema_version ∧
    (ovs.foldl Policy.overlay P).via_socks5 = P.via_socks5 ∧
    (ovs.foldl Policy.overlay P).retry = P.retry ∧
    (ovs.foldl Policy.overlay P).certs = P.certs ∧
    (ovs.foldl Policy.overlay P).trust_stores = P.trust_stores ∧
    (∀ n : String, n ≠ name →
      resolve_stream_template (ovs.foldl Policy.overlay P) n =
        resolve_stream_template P n) := by
  induction ovs generalizing P with
  | nil => simp
  | cons ov rest ih =>
    have h1 := overlay_only_template P ov name (h ov (List.mem_cons_self _ _))
    have h2 := ih (P.overlay ov) (fun o ho => h o (List.mem_cons_of_mem _ ho))
    simp only [List.foldl_cons]
    refine ⟨h2.1.trans h1.1, h2.2.1.trans h1.2.1, h2.2.2.1.trans h1.2.2.1,
      h2.2.2.2.1.trans h1.2.2.2.1, h2.2.2.2.2.1.trans h1.2.2.2.2.1,
      h2.2.2.2.2.2.1.trans h1.2.2.2.2.2.1, h2.2.2.2.2.2.2.1.trans h1.2.2.2.2.2.2.1, ?_⟩
    intro n hn
    exact (h2.2.2.2.2.2.2.2 n hn).trans (h1.2.2.2.2.2.2.2 n hn)

/-- The two overlay texts of the program name only captive_portal_detect. -/
theorem cpd_overlays_only_template :
    cpd_portal_overlay.only_template "captive_portal_detect" ∧
    cpd_no_internet_overlay.only_template "captive_portal_detect" := by
  constructor <;>
    exact ⟨rfl, rfl, rfl, rfl, rfl, rfl, rfl, by
      intro t ht
      simp [cpd_portal_overlay, cpd_no_internet_overlay] at ht
      rw [ht]⟩

/-- The overlay documents of the overlay arm of the notifier. -/
theorem overlays_of_nf_overlay_calls (g : Globals) (current target : Int) :
    overlays_of (nf_overlay_calls g current target) =
      if target = current then
        (if g.force_cpd_fail_portal ≠ 0 then [cpd_portal_overlay] else []) ++
        (if g.force_cpd_fail_no_internet ≠ 0 then [cpd_no_internet_overlay] else [])
      else [] := by
  by_cases hc : target = current <;>
    by_cases hp : g.force_cpd_fail_portal = 0 <;>
    by_cases hn : g.force_cpd_fail_no_internet = 0 <;>
    simp [nf_overlay_calls, hc, hp, hn, overlays_of]

/-- The registration arm of the notifier applies no overlay. -/
theorem overlays_of_nf_registered_calls (blob_size : Nat) :
    overlays_of (nf_registered_calls blob_size) = [] := by
  unfold nf_registered_calls
  split <;> rfl

/-- The last arm of the notifier applies no overlay. -/
theorem overlays_of_nf_operational (K : Consts) (g : Globals) (current : Int)
    (ss_create_ret : Int) :
    overlays_of (nf_operational K g current ss_create_ret).calls = [] := by
  by_cases hc : current = K.LWS_SYSTATE_OPERATIONAL <;>
    by_cases hr : ss_create_ret = 0 <;>
    simp [nf_operational, hc, hr, overlays_of]

/-- The overlay documents the notifier passes to `lws_ss_policy_overlay`. -/
theorem overlays_of_nf (K : Consts) (sspc : Bool) (g : Globals) (current target : Int)
    (blob_size : Nat) (ss_create_ret : Int) :
    overlays_of (app_system_state_nf K sspc g current target blob_size ss_create_ret).calls =
      if sspc = false ∧ target = current ∧
          (target = K.LWS_SYSTATE_INITIALIZED ∨ target = K.LWS_SYSTATE_POLICY_VALID) then
        (if g.force_cpd_fail_portal ≠ 0 then [cpd_portal_overlay] else []) ++
        (if g.force_cpd_fail_no_internet ≠ 0 then [cpd_no_internet_overlay] else [])
      else [] := by
  unfold app_system_state_nf
  split
  · rename_i h1
    have hs : sspc = false := by simpa using h1.1
    show overlays_of (nf_overlay_calls g current target) = _
    rw [overlays_of_nf_overlay_calls]
    by_cases hc : target = current
    · have hcond : sspc = false ∧ target = current ∧
          (target = K.LWS_SYSTATE_INITIALIZED ∨ target = K.LWS_SYSTATE_POLICY_VALID) :=
        ⟨hs, hc, h1.2⟩
      rw [if_pos hcond]
      exact if_pos hc
    · have hcond : ¬ (sspc = false ∧ target = current ∧
          (target = K.LWS_SYSTATE_INITIALIZED ∨ target = K.LWS_SYSTATE_POLICY_VALID)) :=
        fun h => hc h.2.1
      rw [if_neg hcond]
      exact if_neg hc
  · rename_i h1
    have h1b : ¬ (sspc = false ∧ target = current ∧
        (target = K.LWS_SYSTATE_INITIALIZED ∨ target = K.LWS_SYSTATE_POLICY_VALID)) := by
      intro h; exact h1 ⟨by simp [h.1], h.2.2⟩
    rw [if_neg h1b]
    split
    · exact overlays_of_nf_registered_calls blob_size
    · split
      · exact overlays_of_nf_operational K g current ss_create_ret
      · rfl

/-- C9: for every (current, target), either build and every setting of the two
force flags, `app_system_state_nf` applies a policy overlay only when target = current
and target is `LWS_SYSTATE_INITIALIZED` or `LWS_SYSTATE_POLICY_VALID`, and then one
per set flag, the portal overlay first and the no-internet overlay second; every
overlay it applies names only the stream template captive_portal_detect, so after
the merge by name onto any base policy the retry strategies, certificates, trust
stores and every template other than captive_portal_detect (for the embedded policy:
fetch_policy, default, le_via_isrg and both certificates) are those of the base; and
with neither flag set no overlay is applied and the policy is unchanged. -/
theorem app_system_state_nf_overlays (K : Consts) (sspc : Bool) (g : Globals)
    (current target : Int) (blob_size : Nat) (ss_create_ret : Int) (P : Policy) :
    (overlays_of
        (app_system_state_nf K sspc g current target blob_size ss_create_ret).calls =
      if sspc = false ∧ target = current ∧
          (target = K.LWS_SYSTATE_INITIALIZED ∨ target = K.LWS_SYSTATE_POLICY_VALID) then
        (if g.force_cpd_fail_portal ≠ 0 then [cpd_portal_overlay] else []) ++
        (if g.force_cpd_fail_no_internet ≠ 0 then [cpd_no_internet_overlay] else [])
      else []) ∧
    (overlays_of
        (app_system_state_nf K sspc g current target blob_size ss_create_ret).calls ≠ [] →
      target = current ∧
        (target = K.LWS_SYSTATE_INITIALIZED ∨ target = K.LWS_SYSTATE_POLICY_VALID)) ∧
    (∀ ov ∈ overlays_of
        (app_system_state_nf K sspc g current target blob_size ss_create_ret).calls,
      ov.only_template "captive_portal_detect" ∧
      ov.s.map StreamTemplate.name = ["captive_portal_detect"]) ∧
    ((apply_overlays P
        (app_system_state_nf K sspc g current target blob_size ss_create_ret).calls).retry =
        P.retry ∧
      (apply_overlays P
        (app_system_state_nf K sspc g current target blob_size ss_create_ret).calls).certs =
        P.certs ∧
      (apply_overlays P
        (app_system_state_nf K sspc g current target blob_size
          ss_create_ret).calls).trust_stores = P.trust_stores) ∧
    (∀ n : String, n ≠ "captive_portal_detect" →
      resolve_stream_template (apply_overlays P
        (app_system_state_nf K sspc g current target blob_size ss_create_ret).calls) n =
        resolve_stream_template P n) ∧
    (∀ via_socks : Bool,
      resolve_stream_template (apply_overlays (default_ss_policy via_socks)
        (app_system_state_nf K sspc g current target blob_size ss_create_ret).calls)
          "fetch_policy" =
        resolve_stream_template (default_ss_policy via_socks) "fetch_policy" ∧
      resolve_retry_strategy (apply_overlays (default_ss_policy via_socks)
        (app_system_state_nf K sspc g current target blob_size ss_create_ret).calls)
          "default" = some default_retry ∧
      resolve_trust_store (apply_overlays (default_ss_policy via_socks)
        (app_system_state_nf K sspc g current target blob_size ss_create_ret).calls)
          "le_via_isrg" =
        some { name := "le_via_isrg", stack := ["isrg_root_x1", "LEX3_isrg_root_x1"] } ∧
      (apply_overlays (default_ss_policy via_socks)
        (app_system_state_nf K sspc g current target blob_size ss_create_ret).calls).certs =
        [ { name := "isrg_root_x1", der := isrg_root_x1_der },
          { name := "LEX3_isrg_root_x1", der := LEX3_isrg_root_x1_der } ]) ∧
    (g.force_cpd_fail_portal = 0 → g.force_cpd_fail_no_internet = 0 →
      overlays_of
        (app_system_state_nf K sspc g current target blob_size ss_create_ret).calls = [] ∧
      apply_overlays P
        (app_system_state_nf K sspc g current target blob_size ss_create_ret).calls = P) := by
  have hov := overlays_of_nf K sspc g current target blob_size ss_create_ret
  have honly : ∀ ov ∈ overlays_of
      (app_system_state_nf K sspc g current target blob_size ss_create_ret).calls,
      ov.only_template "captive_portal_detect" ∧
      ov.s.map StreamTemplate.name = ["captive_portal_detect"] := by
    intro ov hmem
    rw [hov] at hmem
    split at hmem
    · rw [List.mem_append] at hmem
      rcases hmem with hmem | hmem
      · split at hmem
        · rw [List.mem_singleton] at hmem
          rw [hmem]; exact ⟨cpd_overlays_only_template.1, rfl⟩
        · cases hmem
      · split at hmem
        · rw [List.mem_singleton] at hmem
          rw [hmem]; exact ⟨cpd_overlays_only_template.2, rfl⟩
        · cases hmem
    · cases hmem
  have hfold : ∀ Q : Policy, _ := fun Q =>
    foldl_overlay_only_template
      (overlays_of
        (app_system_state_nf K sspc g current target blob_size ss_create_ret).calls)
      Q "captive_portal_detect" (fun ov h => (honly ov h).1)
  refine ⟨hov, ?_, honly, ?_, ?_, ?_, ?_⟩
  · intro hne
    rw [hov] at hne
    split at hne
    · rename_i h; exact h.2
    · exact absurd rfl hne
  · rw [apply_overlays_eq_foldl]
    exact ⟨(hfold P).2.2.2.2.1, (hfold P).2.2.2.2.2.1, (hfold P).2.2.2.2.2.2.1⟩
  · rw [apply_overlays_eq_foldl]
    exact (hfold P).2.2.2.2.2.2.2
  · intro via_socks
    rw [apply_overlays_eq_foldl]
    refine ⟨(hfold _).2.2.2.2.2.2.2 "fetch_policy" (by decide), ?_, ?_, ?_⟩
    · unfold resolve_retry_strategy
      rw [(hfold _).2.2.2.2.1]
      rfl
    · unfold resolve_trust_store
      rw [(hfold _).2.2.2.2.2.2.1]
      rfl
    · rw [(hfold _).2.2.2.2.2.1]
      rfl
  · intro hp hn
    have hnil : overlays_of
        (app_system_state_nf K sspc g current target blob_size ss_create_ret).calls = [] := by
      rw [hov]
      simp [hp, hn]
    refine ⟨hnil, ?_⟩
    rw [apply_overlays_eq_foldl, hnil]
    rfl

/-- C9 instantiated: with both flags set the notifier at (initialized, initialized)
applies the portal overlay and then the no-internet overlay. -/
theorem app_system_state_nf_overlays_witness :
    overlays_of
        (app_system_state_nf sample_consts false
          (main_options Globals.initial
            { no_options with force_portal := true, force_no_internet := true })
          2 2 0 0).calls = [cpd_portal_overlay, cpd_no_internet_overlay] ∧
    ((2 : Int) = 2 ∧
      ((2 : Int) = sample_consts.LWS_SYSTATE_INITIALIZED ∨
        (2 : Int) = sample_consts.LWS_SYSTATE_POLICY_VALID)) :=
  ⟨by decide,
   (app_system_state_nf_overlays sample_consts false
      (main_options Globals.initial
        { no_options with force_portal := true, force_no_internet := true })
      2 2 0 0 Policy.empty).2.1 (by decide)⟩

/-! ## The retry / backoff engine -/

end MinimalSecureStreams
